import Mathlib

/-
Verification development for the dry-in-react repository.

The repository exposes one core component, GenericButton
(src/src/components/GenericButton.js), and one layered wrapper, Activable
(src/src/components/Activable.js).  The definitions below are a shallow
embedding of that code: each definition carries a comment pointing at the
source lines it embeds.
-/

/- ===== JS value and effect model ===== -/

/-- A shallow model of the JS primitive values that flow through the
callbacks of this repository (callback arguments and results). -/
inductive JSVal where
  | undef
  | null
  | boolean (b : Bool)
  | number (n : Int)
  | str (s : String)
deriving DecidableEq

/-- JS truthiness of a value, as used by the or-expression in the body of
the callback produced by track (GenericButton.js line 23). -/
def jsTruthy : JSVal → Bool
  | JSVal.undef => false
  | JSVal.null => false
  | JSVal.boolean b => b
  | JSVal.number n => !(n == 0)
  | JSVal.str s => !(s == "")

/-- A JS callback: a reference identity (JS functions are compared by
reference), the serialized source text that String(callback) yields, and
its behaviour on an argument list. -/
structure JSCallback where
  id : Nat
  source : String
  run : List JSVal → JSVal

/-- Observable effects of running code from this repository: a console.log
call (format string plus the CSS style arguments), or an invocation of a
user callback (identified by reference id) with its arguments. -/
inductive Effect where
  | consoleLog (fmt : String) (styleArgs : List String)
  | callbackCall (id : Nat) (args : List JSVal)
deriving DecidableEq

/-- Whether an effect is an emission to the diagnostic sink (console). -/
def isConsole : Effect → Bool
  | Effect.consoleLog _ _ => true
  | Effect.callbackCall _ _ => false

/- ===== stringify (GenericButton.js lines 9-12) ===== -/

/-- A character matched by the line-break regex of stringify
(GenericButton.js line 11): the global regex matches every CR and LF
character (CRLF pairs as one match), so its effect is to delete exactly
the CR and LF characters. -/
def isLineBreak (c : Char) : Bool := c == '\n' || c == '\r'

/-- A character matched by the JS whitespace class backslash-s as far as
the source texts of this repository are concerned: space, tab, LF, CR,
vertical tab, form feed. -/
def isJsWhitespace (c : Char) : Bool :=
  c == ' ' || c == '\t' || c == '\n' || c == '\r' || c == '\x0b' || c == '\x0c'

/-- First replace of stringify (GenericButton.js line 11): the line-break
characters are replaced by the empty string, i.e. removed. -/
def stripLineBreaks (s : String) : String :=
  String.mk (s.toList.filter (fun c => !(isLineBreak c)))

/-- Second replace of stringify (GenericButton.js line 12): each maximal
run of whitespace characters is replaced by one single space.  The Bool
argument records whether we are inside a whitespace run whose single
space has already been emitted. -/
def collapseRunsAux : Bool → List Char → List Char
  | _, [] => []
  | inRun, c :: rest =>
    if isJsWhitespace c then
      if inRun then collapseRunsAux true rest
      else ' ' :: collapseRunsAux true rest
    else c :: collapseRunsAux false rest

/-- Runs of whitespace collapsed to one space (GenericButton.js line 12). -/
def collapseRuns (s : String) : String :=
  String.mk (collapseRunsAux false s.toList)

/-- stringify (GenericButton.js lines 9-12): String(callback) with the
line-break characters removed, then runs of whitespace collapsed to one
space. -/
def stringify (s : String) : String :=
  collapseRuns (stripLineBreaks s)

/-- Modelled from the spec words for comparison (spec section 4.1 and the
claim): line breaks collapsed to single spaces, then runs of whitespace
collapsed to one space.  This is NOT the code; the code deletes the
line-break characters instead of turning them into spaces. -/
def stringifySpecWords (s : String) : String :=
  collapseRuns (String.mk (s.toList.map (fun c => if isLineBreak c then ' ' else c)))

/- ===== print (GenericButton.js lines 14-19) ===== -/

/-- First CSS argument of the console.log call in print
(GenericButton.js line 17). -/
def cssOn : String :=
  "background-color: red; color: white; font-weight: bold; padding: 5px;"

/-- Second CSS argument of the console.log call in print
(GenericButton.js line 18). -/
def cssOff : String :=
  "background-color: inherit; color: inherit; font-weight: inherit; padding: inherit;"

/-- The format string of the console.log call in print
(GenericButton.js line 16): the fixed label around the stringified
callback text. -/
def printMessage (s : String) : String :=
  "Your callback %c" ++ s ++ "%c was triggered"

/-- print (GenericButton.js lines 14-19): one console.log emission.
console.log itself returns undefined. -/
def print (s : String) : Effect :=
  Effect.consoleLog (printMessage s) [cssOn, cssOff]

/- ===== track: invocation semantics (GenericButton.js lines 21-25) ===== -/

/-- Invoking the callback that track(callback) produces
(GenericButton.js line 23):
(...params) => print(stringify(callback)) || callback(...params).
print performs the console emission and returns the undefined result of
console.log; the JS or-expression tests that result for truthiness and,
since undefined is falsy, evaluates callback(...params) and yields its
result.  Returns the effect trace in order, and the result value. -/
def invokeTracked (f : JSCallback) (args : List JSVal) : List Effect × JSVal :=
  let printResult := JSVal.undef
  if jsTruthy printResult then
    ([print (stringify f.source)], printResult)
  else
    ([print (stringify f.source), Effect.callbackCall f.id args], f.run args)

/-- Invoking the callback that track(callback) produces when the wrapped
callback may be absent (GenericButton does not require onClick; when it is
absent, callback is undefined).  String(undefined) is the text
"undefined", so the console emission still happens; then
callback(...params) is evaluated on undefined, which throws a TypeError. -/
def invokeTrackedOpt (f : Option JSCallback) (args : List JSVal) :
    List Effect × Except String JSVal :=
  match f with
  | some g => ((invokeTracked g args).1, Except.ok (invokeTracked g args).2)
  | none =>
    ([print (stringify "undefined")],
     Except.error "TypeError: callback is not a function")

/- ===== track: memoization semantics (GenericButton.js lines 21-25) ===== -/

/-- State of one useCallback hook slot: the dependency list it was last
computed with (JS function identities) and the identity of the memoized
function value. -/
structure UseCallbackSlot where
  deps : List Nat
  value : Nat
deriving DecidableEq

/-- React useCallback against the previous state of its hook slot: when
the dependency list is unchanged it returns the stored function, else it
stores and returns the freshly created one (identified by fresh). -/
def useCallback (prev : Option UseCallbackSlot) (fresh : Nat) (deps : List Nat) :
    UseCallbackSlot :=
  match prev with
  | some slot => if slot.deps = deps then slot else UseCallbackSlot.mk deps fresh
  | none => UseCallbackSlot.mk deps fresh

/-- track (GenericButton.js lines 21-25), memoization aspect:
track = callback => useCallback(wrapped, [callback]).  The slot is keyed
on the identity of the original callback alone. -/
def track (prev : Option UseCallbackSlot) (fresh : Nat) (callback : Nat) :
    UseCallbackSlot :=
  useCallback prev fresh [callback]

/- ===== Element props model ===== -/

/-- A click-handler value sitting in an element property: either the
wrapper that track produces around an (optional) callback, or a plain
un-tracked callback reference. -/
inductive HandlerVal where
  | tracked (cb : Option Nat)
  | plain (cb : Nat)
deriving DecidableEq

/-- A value stored in an element property bag. -/
inductive PropValue where
  | undef
  | str (s : String)
  | boolean (b : Bool)
  | num (n : Int)
  | handler (h : HandlerVal)
  | styleV (st : List (String × String))
deriving DecidableEq

/-- An element property bag: key-value pairs in the order the JSX object
literal and spreads produce them; a later entry for a key overrides an
earlier one, as in JS object spread. -/
abbrev Props := List (String × PropValue)

/-- The first of two optional values that is present. -/
def firstSome (x y : Option PropValue) : Option PropValue :=
  match x with
  | some v => some v
  | none => y

/-- Lookup under last-binding-wins semantics: the value a JS object built
from these entries in order would hold for the key (a later entry for the
key overrides an earlier one). -/
def lookupProp : Props → String → Option PropValue
  | [], _ => none
  | (k', v) :: rest, k =>
    firstSome (lookupProp rest k) (if k' = k then some v else none)

/- ===== GenericButton (src/src/components/GenericButton.js) ===== -/

/-- The shared module-level style descriptor
(GenericButton.js lines 27-35). -/
def style : List (String × String) :=
  [("border", "solid 1px black"),
   ("borderRadius", "5px"),
   ("cursor", "pointer"),
   ("display", "block"),
   ("fontSize", "20px"),
   ("margin", "20px 0"),
   ("padding", "10px")]

/-- The Button closure built inside the GenericButton body
(GenericButton.js lines 38-45): it captures the onClick callback and the
enhancement rest-props of the enclosing render. -/
structure ButtonClosure where
  onClick : Option Nat
  enhancement : Props
deriving DecidableEq

/-- The base properties the Button element starts from
(GenericButton.js lines 40-41): onClick = track(onClick) and
style = the shared style descriptor. -/
def buttonBaseProps (onClick : Option Nat) : Props :=
  [("onClick", PropValue.handler (HandlerVal.tracked onClick)),
   ("style", PropValue.styleV style)]

/-- Rendering the Button closure on render-time props
(GenericButton.js lines 39-44): the JSX spreads produce the base
properties, then the props passed to Button, then the captured
enhancement, later entries overriding earlier ones. -/
def ButtonClosure.render (B : ButtonClosure) (props : Props) : Props :=
  buttonBaseProps B.onClick ++ props ++ B.enhancement

/-- The track member of the pieces bundle is always the one module-level
track decorator (GenericButton.js lines 21-25); its invocation semantics
are invokeTracked and its memoization is track above.  In a bundle value
only this constant reference is recorded. -/
inductive TrackRef where
  | moduleTrack
deriving DecidableEq

/-- The pieces bundle (GenericButton.js line 46):
pieces = a record of Button, track and style. -/
structure PiecesBundle where
  Button : ButtonClosure
  track : TrackRef
  style : List (String × String)
deriving DecidableEq

/-- Output of mounting an element produced by this code: either a host
DOM element with its final property bag, or an element of a custom
component, recorded by the component reference id, its displayName at
element-creation time, and the pieces bundle passed as its props. -/
inductive Rendered where
  | dom (tag : String) (props : Props)
  | componentEl (compId : Nat) (compName : Option String) (bundle : PiecesBundle)
deriving DecidableEq

/-- The property bag of a host element (empty for component elements). -/
def Rendered.propsOf : Rendered → Props
  | Rendered.dom _ props => props
  | Rendered.componentEl _ _ _ => []

/-- A function child (a custom component): reference id, the mutable
displayName slot, and its render behaviour on the pieces bundle. -/
structure ChildComponent where
  id : Nat
  displayName : Option String
  render : PiecesBundle → Rendered

/-- The children argument of GenericButton: either a plain renderable
value, or a function.  The source discriminates the two with
typeof children === "function"; in this embedding the same distinction is
the constructor tag. -/
inductive Children where
  | renderable (v : PropValue)
  | component (c : ChildComponent)

/-- isComponent (GenericButton.js line 4):
object => typeof object === "function". -/
def isComponent : Children → Bool
  | Children.renderable _ => false
  | Children.component _ => true

/-- The displayName visible on a children value (none for a plain
renderable). -/
def Children.displayNameOf : Children → Option String
  | Children.renderable _ => none
  | Children.component c => c.displayName

/-- identify (GenericButton.js lines 6-7):
Object.assign(component, displayName "Custom(GenericButton)") mutates the
component in place and returns it. -/
def identify (c : ChildComponent) : ChildComponent :=
  { c with displayName := some "Custom(GenericButton)" }

/-- Result of the GenericButton body (GenericButton.js lines 48-50):
either createElement(identify(children), pieces) in composition mode, or
createElement(Button, a bag holding children) in simple mode. -/
inductive GBResult where
  | childEl (c : ChildComponent) (pieces : PiecesBundle)
  | buttonEl (B : ButtonClosure) (props : Props)

/-- Mounting the result: a composition-mode element renders whatever the
child function returns, as-is; a simple-mode element renders the button
host element with the final property bag of the Button closure. -/
def GBResult.mount : GBResult → Rendered
  | GBResult.childEl c pieces => c.render pieces
  | GBResult.buttonEl B props => Rendered.dom "button" (B.render props)

/-- The destructuring of the GenericButton parameter object
(GenericButton.js line 37) pulls children and onClick out; the rest-props
collect every other key. -/
def enhancementOf (bag : Props) : Props :=
  bag.filter (fun kv => !(kv.1 == "children") && !(kv.1 == "onClick"))

/-- The onClick binding produced by the same destructuring: the callback
stored under the onClick key if one is present. -/
def onClickOf (bag : Props) : Option Nat :=
  match lookupProp bag "onClick" with
  | some (PropValue.handler (HandlerVal.plain n)) => some n
  | _ => none

/-- The Button closure GenericButton builds for a given parameter bag. -/
def buttonClosureOf (bag : Props) : ButtonClosure :=
  ButtonClosure.mk (onClickOf bag) (enhancementOf bag)

/-- The pieces bundle GenericButton builds for a given parameter bag
(GenericButton.js line 46). -/
def piecesOf (bag : Props) : PiecesBundle :=
  PiecesBundle.mk (buttonClosureOf bag) TrackRef.moduleTrack style

/-- GenericButton (GenericButton.js lines 37-50).  The children argument
is kept apart from the rest of the parameter bag; the destructuring of
onClick and the rest-props is onClickOf and enhancementOf.  The match on
children is the isComponent ternary of lines 48-50.  Because identify
mutates the children function in place, the component returns, next to
its element, the post-render state of the children value. -/
def GenericButton (children : Children) (bag : Props) : GBResult × Children :=
  match children with
  | Children.component c =>
      (GBResult.childEl (identify c) (piecesOf bag), Children.component (identify c))
  | Children.renderable v =>
      (GBResult.buttonEl (buttonClosureOf bag) [("children", v)], Children.renderable v)

/- ===== Activable (src/src/components/Activable.js) ===== -/

/-- identify of Activable.js lines 6-7: Object.assign of displayName
"Custom(Activable)" onto the component, in place. -/
def identifyActivable (c : ChildComponent) : ChildComponent :=
  { c with displayName := some "Custom(Activable)" }

/-- Activable.defaultProps.active (Activable.js lines 19-21). -/
def activableDefaultActive : Bool := true

/-- The effective active flag: the supplied prop, or the default when the
prop is absent. -/
def activableActive (active : Option Bool) : Bool :=
  active.getD activableDefaultActive

/-- The composition-mode child Activable hands to GenericButton
(Activable.js line 11): props => createElement(identify(children), props).
It forwards the received props (the pieces bundle) unchanged. -/
def activableChild (children : ChildComponent) : ChildComponent :=
  ChildComponent.mk 0 none
    (fun pieces =>
      Rendered.componentEl children.id (identifyActivable children).displayName pieces)

/-- The parameter bag of the GenericButton element Activable renders
(Activable.js line 10): onClick forwarded, then disabled = !active. -/
def activableBag (onClick : Option Nat) (active : Option Bool) : Props :=
  [("onClick",
    match onClick with
    | some n => PropValue.handler (HandlerVal.plain n)
    | none => PropValue.undef),
   ("disabled", PropValue.boolean (!activableActive active))]

/-- Activable (Activable.js lines 9-13): renders GenericButton with the
forwarded onClick, disabled = !active, and the forwarding child. -/
def Activable (onClick : Option Nat) (children : ChildComponent)
    (active : Option Bool) : GBResult × Children :=
  GenericButton (Children.component (activableChild children))
    (activableBag onClick active)

/- ===== Allocation origins (for the bundle lifetime question) ===== -/

/-- Allocation origin of a runtime value: moduleLevel for values created
once when GenericButton.js is loaded, render n for values created during
the n-th invocation of the GenericButton body. -/
inductive Origin where
  | moduleLevel
  | render (n : Nat)
deriving DecidableEq

/-- Allocation origins of the pieces bundle built by the n-th invocation
(GenericButton.js lines 38-46): the bundle object literal and the Button
arrow are created inside the component body, so they are fresh per
invocation; track (lines 21-25) and style (lines 27-35) are module-level
consts created once. -/
structure PiecesOrigins where
  bundleRecord : Origin
  Button : Origin
  track : Origin
  style : Origin
deriving DecidableEq

/-- The origins of the bundle the n-th invocation exposes. -/
def piecesOrigins (n : Nat) : PiecesOrigins :=
  PiecesOrigins.mk (Origin.render n) (Origin.render n) Origin.moduleLevel Origin.moduleLevel

/- ===== Helper lemmas ===== -/

theorem firstSome_none_right (x : Option PropValue) : firstSome x none = x := by
  cases x <;> rfl

theorem firstSome_assoc (x y z : Option PropValue) :
    firstSome (firstSome x y) z = firstSome x (firstSome y z) := by
  cases x <;> rfl

theorem lookupProp_append (a b : Props) (k : String) :
    lookupProp (a ++ b) k = firstSome (lookupProp b k) (lookupProp a k) := by
  induction a with
  | nil => exact (firstSome_none_right (lookupProp b k)).symm
  | cons hd tl ih =>
    obtain ⟨k', v⟩ := hd
    simp only [List.cons_append, lookupProp, List.append_eq, ih, firstSome_assoc]

theorem lookup_buttonRender (B : ButtonClosure) (p : Props) (k : String) :
    lookupProp (B.render p) k =
      firstSome (lookupProp B.enhancement k)
        (firstSome (lookupProp p k) (lookupProp (buttonBaseProps B.onClick) k)) := by
  show lookupProp ((buttonBaseProps B.onClick ++ p) ++ B.enhancement) k = _
  rw [lookupProp_append, lookupProp_append]

theorem lookupProp_filter_none (q : String × PropValue → Bool) (bag : Props)
    (k : String) (h : ∀ v, q (k, v) = false) :
    lookupProp (bag.filter q) k = none := by
  induction bag with
  | nil => rfl
  | cons hd tl ih =>
    obtain ⟨k', v⟩ := hd
    by_cases hk : k' = k
    · subst hk
      simp [List.filter, h v, ih]
    · cases hq : q (k', v)
      · simp [List.filter, hq, ih]
      · simp [List.filter, hq, lookupProp, ih, hk, firstSome]

theorem enhancementOf_onClick_none (bag : Props) :
    lookupProp (enhancementOf bag) "onClick" = none := by
  apply lookupProp_filter_none
  intro v
  rfl

theorem enhancementOf_children_none (bag : Props) :
    lookupProp (enhancementOf bag) "children" = none := by
  apply lookupProp_filter_none
  intro v
  rfl

/-- The head of a character list is a whitespace character. -/
def headWS : List Char → Bool
  | [] => false
  | c :: _ => isJsWhitespace c

/-- Two adjacent whitespace characters occur somewhere in the list. -/
def hasAdjacentWS : List Char → Bool
  | c1 :: c2 :: rest => (isJsWhitespace c1 && isJsWhitespace c2) || hasAdjacentWS (c2 :: rest)
  | _ => false

theorem hasAdjacentWS_cons (x : Char) (rest : List Char) :
    hasAdjacentWS (x :: rest)
      = ((isJsWhitespace x && headWS rest) || hasAdjacentWS rest) := by
  cases rest <;> simp [hasAdjacentWS, headWS]

theorem lineBreak_ws (c : Char) (h : isLineBreak c = true) :
    isJsWhitespace c = true := by
  simp only [isLineBreak, Bool.or_eq_true, beq_iff_eq] at h
  rcases h with h | h <;> subst h <;> rfl

theorem collapseRunsAux_mem (b : Bool) (l : List Char) :
    ∀ c ∈ collapseRunsAux b l, c = ' ' ∨ isJsWhitespace c = false := by
  induction l generalizing b with
  | nil => intro c hc; cases hc
  | cons hd tl ih =>
    intro c hc
    by_cases hw : isJsWhitespace hd
    · cases b with
      | true =>
        simp only [collapseRunsAux, hw, if_true] at hc
        exact ih true c hc
      | false =>
        simp only [collapseRunsAux, hw, if_true, if_false] at hc
        rcases List.mem_cons.mp hc with h | h
        · exact Or.inl h
        · exact ih true c h
    · rw [Bool.not_eq_true] at hw
      simp only [collapseRunsAux, hw, Bool.false_eq_true, if_false] at hc
      rcases List.mem_cons.mp hc with h | h
      · subst h; exact Or.inr hw
      · exact ih false c h

theorem collapseRunsAux_head_true (l : List Char) :
    headWS (collapseRunsAux true l) = false := by
  induction l with
  | nil => rfl
  | cons hd tl ih =>
    by_cases hw : isJsWhitespace hd
    · simp only [collapseRunsAux, hw, if_true]
      exact ih
    · rw [Bool.not_eq_true] at hw
      simp only [collapseRunsAux, hw, Bool.false_eq_true, if_false, headWS]

theorem collapseRunsAux_noAdjacent (b : Bool) (l : List Char) :
    hasAdjacentWS (collapseRunsAux b l) = false := by
  induction l generalizing b with
  | nil => rfl
  | cons hd tl ih =>
    by_cases hw : isJsWhitespace hd
    · cases b with
      | true => simpa [collapseRunsAux, hw] using ih true
      | false =>
        simp only [collapseRunsAux, hw, if_true]
        rw [if_neg (by simp)]
        rw [hasAdjacentWS_cons, collapseRunsAux_head_true, ih true]
        simp
    · rw [Bool.not_eq_true] at hw
      simp only [collapseRunsAux, hw]
      rw [if_neg (by simp)]
      rw [hasAdjacentWS_cons, hw, ih false]
      simp

theorem collapseRunsAux_filter (b : Bool) (l : List Char) :
    (collapseRunsAux b l).filter (fun c => !(isJsWhitespace c))
      = l.filter (fun c => !(isJsWhitespace c)) := by
  induction l generalizing b with
  | nil => rfl
  | cons hd tl ih =>
    by_cases hw : isJsWhitespace hd
    · cases b with
      | true => simpa [collapseRunsAux, hw, List.filter_cons] using ih true
      | false =>
        have hsp : isJsWhitespace ' ' = true := rfl
        simpa [collapseRunsAux, hw, List.filter_cons, hsp] using ih true
    · rw [Bool.not_eq_true] at hw
      simpa [collapseRunsAux, hw, List.filter_cons] using ih false

theorem filter_strip_nonWS (l : List Char) :
    (l.filter (fun c => !(isLineBreak c))).filter (fun c => !(isJsWhitespace c))
      = l.filter (fun c => !(isJsWhitespace c)) := by
  induction l with
  | nil => rfl
  | cons hd tl ih =>
    cases hlb : isLineBreak hd
    · simp [List.filter_cons, hlb, ih]
    · have hw : isJsWhitespace hd = true := lineBreak_ws hd hlb
      simp [List.filter_cons, hlb, hw, ih]

/- ===== Claim theorems ===== -/

/-- Claim C1: for every child argument of GenericButton, a function child
is invoked with the pieces bundle of Button, track and style and its
return value is mounted as-is, without re-wrapping in the button
primitive, while a non-function child is rendered through the Button
primitive with the child passed through as its content, and that
primitive's click handler equals the track-wrapped onClick. -/
theorem C1_dual_mode_resolution (bag : Props) (c : ChildComponent) (v : PropValue) :
    isComponent (Children.component c) = true
    ∧ isComponent (Children.renderable v) = false
    ∧ (GenericButton (Children.component c) bag).1
        = GBResult.childEl (identify c) (piecesOf bag)
    ∧ (GenericButton (Children.component c) bag).1.mount = c.render (piecesOf bag)
    ∧ (GenericButton (Children.renderable v) bag).1
        = GBResult.buttonEl (buttonClosureOf bag) [("children", v)]
    ∧ lookupProp ((GenericButton (Children.renderable v) bag).1.mount).propsOf "children"
        = some v
    ∧ lookupProp ((GenericButton (Children.renderable v) bag).1.mount).propsOf "onClick"
        = some (PropValue.handler (HandlerVal.tracked (onClickOf bag))) := by
  refine ⟨rfl, rfl, rfl, rfl, rfl, ?_, ?_⟩
  · show lookupProp
        ((buttonBaseProps (onClickOf bag) ++ [("children", v)]) ++ enhancementOf bag)
        "children" = some v
    rw [lookupProp_append, enhancementOf_children_none, lookupProp_append]
    rfl
  · show lookupProp
        ((buttonBaseProps (onClickOf bag) ++ [("children", v)]) ++ enhancementOf bag)
        "onClick" = some (PropValue.handler (HandlerVal.tracked (onClickOf bag)))
    rw [lookupProp_append, enhancementOf_onClick_none, lookupProp_append]
    rfl

/-- Claim C2: the element renderButton produces from render-time props p
and enhancement e carries the tracked click handler and the shared base
style, overridden by p, overridden in turn by e; the enhancement has
final precedence, so a disabled entry in e always wins over any disabled
supplied in p. -/
theorem C2_merge_precedence (o : Option Nat) (p e : Props) :
    (∀ k, lookupProp ((ButtonClosure.mk o e).render p) k
        = firstSome (lookupProp e k)
            (firstSome (lookupProp p k) (lookupProp (buttonBaseProps o) k)))
    ∧ lookupProp (buttonBaseProps o) "onClick"
        = some (PropValue.handler (HandlerVal.tracked o))
    ∧ lookupProp (buttonBaseProps o) "style" = some (PropValue.styleV style)
    ∧ ∀ dv, lookupProp e "disabled" = some dv →
        lookupProp ((ButtonClosure.mk o e).render p) "disabled" = some dv := by
  refine ⟨fun k => lookup_buttonRender (ButtonClosure.mk o e) p k, rfl, rfl,
    fun dv hdv => ?_⟩
  rw [lookup_buttonRender (ButtonClosure.mk o e) p "disabled"]
  show firstSome (lookupProp e "disabled") _ = some dv
  rw [hdv]
  rfl

/-- Witness for C2 at concrete inputs: an enhancement-level disabled wins
over a render-time disabled. -/
theorem C2_merge_precedence_witness :
    lookupProp ((ButtonClosure.mk none [("disabled", PropValue.boolean true)]).render
        [("disabled", PropValue.boolean false)]) "disabled"
      = some (PropValue.boolean true) :=
  (C2_merge_precedence none [("disabled", PropValue.boolean false)]
      [("disabled", PropValue.boolean true)]).2.2.2 (PropValue.boolean true) rfl

/-- Claim C3: invoking the callback produced by track with arguments a
and b causes exactly one observability emission, a console line holding
the fixed label and the stringified source of the callback, followed by a
single call of the callback on those arguments, and the result of the
wrapped callback equals the result of the callback. -/
theorem C3_track_invocation (f : JSCallback) (a b : JSVal) :
    invokeTracked f [a, b]
      = ([print (stringify f.source), Effect.callbackCall f.id [a, b]], f.run [a, b])
    ∧ ((invokeTracked f [a, b]).1.filter isConsole).length = 1
    ∧ (invokeTracked f [a, b]).2 = f.run [a, b]
    ∧ print (stringify f.source)
        = Effect.consoleLog
            ("Your callback %c" ++ stringify f.source ++ "%c was triggered")
            [cssOn, cssOff] :=
  ⟨rfl, rfl, rfl, rfl⟩

/-- Claim C4: the wrapping performed by track is memoized on the identity
of the callback: across two renders of the same hook slot with the same
callback the wrapped callback is referentially identical, and a changed
callback yields the freshly created wrapper. -/
theorem C4_track_memoized (w1 w2 f g : Nat) :
    (track (some (track none w1 f)) w2 f).value = (track none w1 f).value
    ∧ (track none w1 f).value = w1
    ∧ (f ≠ g → (track (some (track none w1 f)) w2 g).value = w2) := by
  refine ⟨?_, rfl, fun hfg => ?_⟩
  · show (useCallback (some (UseCallbackSlot.mk [f] w1)) w2 [f]).value = w1
    rw [useCallback, if_pos rfl]
  · show (useCallback (some (UseCallbackSlot.mk [f] w1)) w2 [g]).value = w2
    rw [useCallback, if_neg (by simp [hfg])]

/-- Witness for C4 at concrete inputs: a changed callback identity yields
the fresh wrapper. -/
theorem C4_track_memoized_witness :
    (track (some (track none 0 2)) 1 3).value = 1 :=
  (C4_track_memoized 0 1 2 3).2.2 (by decide)

/-- Claim C5: Activable invokes GenericButton with the given onClick and
an enhancement whose disabled entry is the negation of active, forwards
the exact pieces bundle it receives unchanged to the caller-supplied
child, and active defaults to true when omitted; with active false the
bundle's Button rendered with no other properties carries disabled true,
and with active true or by default it carries disabled false. -/
theorem C5_activation_adapter (o : Option Nat) (children : ChildComponent)
    (active : Option Bool) (pieces : PiecesBundle) :
    (Activable o children active).1
      = GBResult.childEl (identify (activableChild children))
          (piecesOf (activableBag o active))
    ∧ onClickOf (activableBag o active) = o
    ∧ enhancementOf (activableBag o active)
        = [("disabled", PropValue.boolean (!activableActive active))]
    ∧ (activableChild children).render pieces
        = Rendered.componentEl children.id (some "Custom(Activable)") pieces
    ∧ activableActive none = true
    ∧ lookupProp ((piecesOf (activableBag o active)).Button.render []) "disabled"
        = some (PropValue.boolean (!activableActive active))
    ∧ activableActive (some false) = false
    ∧ activableActive (some true) = true := by
  refine ⟨rfl, ?_, ?_, rfl, rfl, ?_, rfl, rfl⟩
  · cases o <;> rfl
  · cases o <;> rfl
  · cases o <;> rfl

/-- Counterexample to claim C6, at the concrete serialized source text
made of the letter a, a line feed, and the letter b: stringify as coded
removes the line break, yielding ab, while the transformation the claim
describes (line breaks collapsed to single spaces, then whitespace runs
collapsed) yields a space between a and b. -/
theorem C6_counterexample :
    stringify "a\nb" = "ab"
    ∧ stringifySpecWords "a\nb" = "a b"
    ∧ stringify "a\nb" ≠ stringifySpecWords "a\nb" := by
  refine ⟨rfl, rfl, ?_⟩
  decide

/-- Claim C6 amended: the rendering emitted by the track decorator equals
the serialized source text with the line-break characters removed and the
remaining runs of whitespace collapsed to one space.  The first effect of
an invocation is the emission of exactly stringify of the source, and
stringify leaves no line-break character, leaves no two adjacent
whitespace characters, and preserves the non-whitespace characters in
order. -/
theorem C6_stringify_semantics (f : JSCallback) (args : List JSVal) (s : String) :
    (invokeTracked f args).1.head? = some (print (stringify f.source))
    ∧ ((stringify s).toList.all fun c => !(isLineBreak c)) = true
    ∧ hasAdjacentWS (stringify s).toList = false
    ∧ (stringify s).toList.filter (fun c => !(isJsWhitespace c))
        = s.toList.filter (fun c => !(isJsWhitespace c)) := by
  refine ⟨rfl, ?_, ?_, ?_⟩
  · rw [List.all_eq_true]
    intro c hc
    have hmem : c ∈ collapseRunsAux false (stripLineBreaks s).toList := hc
    rcases collapseRunsAux_mem false _ c hmem with h | h
    · subst h; rfl
    · cases hlb : isLineBreak c
      · rfl
      · exact absurd (lineBreak_ws c hlb) (by simp [h])
  · show hasAdjacentWS (collapseRunsAux false (stripLineBreaks s).toList) = false
    exact collapseRunsAux_noAdjacent false _
  · show (collapseRunsAux false (stripLineBreaks s).toList).filter
        (fun c => !(isJsWhitespace c)) = _
    rw [collapseRunsAux_filter]
    show ((s.toList.filter fun c => !(isLineBreak c)).filter
        fun c => !(isJsWhitespace c)) = _
    exact filter_strip_nonWS s.toList

/-- Counterexample to claim C7: with onClick absent, invoking the
track-wrapped handler does perform the observability emission, but it
then throws a TypeError from calling the absent callback instead of
completing without error. -/
theorem C7_counterexample :
    (invokeTrackedOpt none []).1 = [print (stringify "undefined")]
    ∧ (invokeTrackedOpt none []).2
        = Except.error "TypeError: callback is not a function" :=
  ⟨rfl, rfl⟩

/-- Claim C7 amended: when onClick is absent, tracking is still applied
around the absent callback and the button primitive's click handler is
still the track-wrapped handler; invoking it performs the observability
emission, but it then throws a TypeError from invoking undefined rather
than completing without error. -/
theorem C7_absent_onClick (args : List JSVal) (bag : Props) (v : PropValue)
    (h : lookupProp bag "onClick" = none) :
    invokeTrackedOpt none args
      = ([print (stringify "undefined")],
         Except.error "TypeError: callback is not a function")
    ∧ lookupProp ((GenericButton (Children.renderable v) bag).1.mount).propsOf "onClick"
        = some (PropValue.handler (HandlerVal.tracked none)) := by
  refine ⟨rfl, ?_⟩
  have ho : onClickOf bag = none := by
    rw [onClickOf, h]
  show lookupProp
      ((buttonBaseProps (onClickOf bag) ++ [("children", v)]) ++ enhancementOf bag)
      "onClick" = some (PropValue.handler (HandlerVal.tracked none))
  rw [lookupProp_append, enhancementOf_onClick_none, lookupProp_append, ho]
  rfl

/-- Witness for C7 amended at concrete inputs: an empty parameter bag has
no onClick, and the simple-mode element still carries the track-wrapped
handler around the absent callback. -/
theorem C7_absent_onClick_witness :
    lookupProp
        ((GenericButton (Children.renderable (PropValue.str "hi")) []).1.mount).propsOf
        "onClick" = some (PropValue.handler (HandlerVal.tracked none)) :=
  (C7_absent_onClick [] [] (PropValue.str "hi") rfl).2

/-- A concrete function child carrying no displayName, used as an input
below. -/
def plainChild : ChildComponent :=
  ChildComponent.mk 5 none (fun _ => Rendered.dom "span" [])

/-- Counterexample to claim C8: GenericButton does not leave its inputs
unmodified: rendering it with a function child assigns the displayName
Custom(GenericButton) onto that child, observably changing it. -/
theorem C8_counterexample :
    Children.displayNameOf ((GenericButton (Children.component plainChild) []).2)
        = some "Custom(GenericButton)"
    ∧ Children.displayNameOf (Children.component plainChild) = none
    ∧ Children.displayNameOf ((GenericButton (Children.component plainChild) []).2)
        ≠ Children.displayNameOf (Children.component plainChild) := by
  refine ⟨rfl, rfl, ?_⟩
  decide

/-- Claim C8 amended: the GenericButton body keeps no internal state and
performs no observability emission itself (print is only reachable from
inside a track-wrapped callback), and a non-function child is left
unmodified; but in composition mode the function child is mutated: the
displayName Custom(GenericButton) is assigned onto it, its identity and
render behaviour being preserved. -/
theorem C8_purity_and_mutation (bag : Props) (v : PropValue) (c : ChildComponent) :
    (GenericButton (Children.renderable v) bag).2 = Children.renderable v
    ∧ (GenericButton (Children.component c) bag).2 = Children.component (identify c)
    ∧ (identify c).id = c.id
    ∧ (identify c).render = c.render
    ∧ (identify c).displayName = some "Custom(GenericButton)" :=
  ⟨rfl, rfl, rfl, rfl, rfl⟩

/-- Counterexample to claim C9: the style and track members of the
bundles built by two distinct invocations of GenericButton are one and
the same module-level allocation, so parts of the pieces bundle do
outlive a single render invocation and are shared across invocations. -/
theorem C9_counterexample :
    (piecesOrigins 0).style = (piecesOrigins 1).style
    ∧ (piecesOrigins 0).track = (piecesOrigins 1).track
    ∧ (piecesOrigins 0).style = Origin.moduleLevel :=
  ⟨rfl, rfl, rfl⟩

/-- Claim C9 amended: the bundle record itself and its Button member are
constructed fresh on every invocation of GenericButton, but its track and
style members are module-level values created once at module load and
shared by the bundles of all invocations. -/
theorem C9_bundle_lifetimes (m n : Nat) (h : m ≠ n) :
    (piecesOrigins m).bundleRecord ≠ (piecesOrigins n).bundleRecord
    ∧ (piecesOrigins m).Button ≠ (piecesOrigins n).Button
    ∧ (piecesOrigins m).track = (piecesOrigins n).track
    ∧ (piecesOrigins m).style = (piecesOrigins n).style := by
  refine ⟨?_, ?_, rfl, rfl⟩ <;> simp [piecesOrigins, h]

/-- Witness for C9 amended at the first two invocations. -/
theorem C9_bundle_lifetimes_witness :
    (piecesOrigins 0).Button ≠ (piecesOrigins 1).Button
    ∧ (piecesOrigins 0).style = (piecesOrigins 1).style :=
  ⟨(C9_bundle_lifetimes 0 1 (by decide)).2.1,
   (C9_bundle_lifetimes 0 1 (by decide)).2.2.2⟩

/-- A parameter bag of a GenericButton call supplying an onClick and one
extra enhancement entry. -/
def bagWithOnClick : Props :=
  [("onClick", PropValue.handler (HandlerVal.plain 7)),
   ("disabled", PropValue.boolean true)]

/-- Counterexample to claim C10: an onClick passed to GenericButton never
lands in the enhancement rest-props, because the destructuring of the
parameter object removes it; the rendered element keeps the track-wrapped
handler, so the handler is not replaced and tracking is not bypassed. -/
theorem C10_counterexample :
    lookupProp (enhancementOf bagWithOnClick) "onClick" = none
    ∧ lookupProp
        ((GenericButton (Children.renderable (PropValue.str "Go"))
            bagWithOnClick).1.mount).propsOf "onClick"
        = some (PropValue.handler (HandlerVal.tracked (some 7)))
    ∧ PropValue.handler (HandlerVal.tracked (some 7))
        ≠ PropValue.handler (HandlerVal.plain 7) := by
  refine ⟨rfl, rfl, ?_⟩
  decide

/-- Claim C10 amended: the enhancement rest-props can never contain an
onClick, since the destructuring of the GenericButton parameters removes
it, so an onClick given to the provider is always wrapped by track; the
tracked handler is instead replaced, bypassing tracking, when the
render-time props passed to the Button primitive themselves carry an
onClick, because they are spread after the tracked handler and the
enhancement holds no onClick to restore it. -/
theorem C10_handler_override (bag p : Props) (n : Nat) (v : PropValue)
    (h : lookupProp p "onClick" = some (PropValue.handler (HandlerVal.plain n))) :
    lookupProp (enhancementOf bag) "onClick" = none
    ∧ lookupProp ((buttonClosureOf bag).render p) "onClick"
        = some (PropValue.handler (HandlerVal.plain n))
    ∧ lookupProp ((buttonClosureOf bag).render [("children", v)]) "onClick"
        = some (PropValue.handler (HandlerVal.tracked (onClickOf bag))) := by
  refine ⟨enhancementOf_onClick_none bag, ?_, ?_⟩
  · show lookupProp
        ((buttonBaseProps (onClickOf bag) ++ p) ++ enhancementOf bag) "onClick"
        = some (PropValue.handler (HandlerVal.plain n))
    rw [lookupProp_append, enhancementOf_onClick_none, lookupProp_append, h]
    rfl
  · show lookupProp
        ((buttonBaseProps (onClickOf bag) ++ [("children", v)]) ++ enhancementOf bag)
        "onClick" = some (PropValue.handler (HandlerVal.tracked (onClickOf bag)))
    rw [lookupProp_append, enhancementOf_onClick_none, lookupProp_append]
    rfl

/-- Witness for C10 amended at concrete inputs: a render-time onClick
replaces the tracked handler. -/
theorem C10_handler_override_witness :
    lookupProp ((buttonClosureOf bagWithOnClick).render
        [("onClick", PropValue.handler (HandlerVal.plain 9))]) "onClick"
      = some (PropValue.handler (HandlerVal.plain 9)) :=
  (C10_handler_override bagWithOnClick
      [("onClick", PropValue.handler (HandlerVal.plain 9))] 9
      (PropValue.str "x") rfl).2.1
